import Mathlib

/-!
Verification development for the `arbitui` repository: a terminal dashboard
(`client.py`) talking over a websocket to a gateway (`server.py`) which mediates
to an external pricing engine over JSON-RPC (`lib.py`, `qlib.py`, `handler.py`).

The Python source is shallowly embedded: message types (`message.py`, `dtos.py`)
become Lean inductives/structures, the coroutine loops become step functions on
explicit state (queues are lists, the wire is a list of sent records), and
exceptions become `Except`.  Collaborators that live outside this repository
(the sqlite storage, the pricing engine, pydantic validation of payloads) are
passed in as function arguments, mirroring how the source receives them.
Float payloads are never computed with; they are carried opaquely in their wire
form (`JsonV`).
-/

/-- Wire-level JSON values (the records exchanged on the websocket and the RPC
endpoint).  Numeric payloads are kept in wire form; no arithmetic is done on
them anywhere in the embedded code. -/
inductive JsonV where
  | jnull
  | jbool (b : Bool)
  | jstr (s : String)
  | jnum (n : Int)
  | jarr (xs : List JsonV)
  | jobj (fields : List (String × JsonV))

/-- `message.py` `Severity`: an `Enum` (not a `str` mix-in) with string values. -/
inductive Severity where
  | INFORMATION
  | ERROR
  | WARNING
deriving DecidableEq, Repr

/-- Python runtime values that appear in `Severity.to_textual`: plain strings
and `Severity` enum members.  Kept as a sum so that Python's `==` can be
modelled: `str.__eq__` on a non-`str` returns `NotImplemented`, plain `Enum`
members compare by identity, so equality across the two variants is `False`. -/
inductive PyVal where
  | pystr (s : String)
  | pysev (s : Severity)
deriving DecidableEq, Repr

/-- Python `==` restricted to the values of `PyVal`: value equality within a
variant, `False` across variants (a plain `Enum` member never equals its own
`.value` string). -/
def pyEq (a b : PyVal) : Bool := decide (a = b)

/-- `message.py`: `Severity.value`, the string value of the enum member. -/
def Severity.value : Severity → PyVal
  | .INFORMATION => .pystr "information"
  | .ERROR => .pystr "error"
  | .WARNING => .pystr "warning"

/-- Python exceptions that the embedded code can raise. -/
inductive PyExn where
  | runtimeError
  | indexError
deriving DecidableEq, Repr

/-- `message.py` lines 115-124, `Severity.to_textual`: a `match` on
`self.value` (a string) whose case patterns are the enum members
`Severity.ERROR` / `Severity.WARNING` / `Severity.INFORMATION`; a value
pattern matches by `==`, and the final `case _` executes a bare `raise`
(which, with no active exception, raises `RuntimeError`). -/
def Severity.to_textual (s : Severity) : Except PyExn String :=
  if pyEq s.value (.pysev .ERROR) then .ok "error"
  else if pyEq s.value (.pysev .WARNING) then .ok "warning"
  else if pyEq s.value (.pysev .INFORMATION) then .ok "information"
  else .error .runtimeError

/-- A JSON object: the ordered field list of a decoded dict. -/
abbrev JsonObj := List (String × JsonV)

namespace Dtos

/-- `dtos.py`: periods (tenors/expiries) are plain strings such as `3M`, `10Y`. -/
abbrev Period := String

/-- `dtos.py` `VolatilitySkew`: `skew: list[Tuple[float, float]]` (floats kept
in wire form). -/
structure VolatilitySkew where
  skew : List (JsonV × JsonV)

/-- `dtos.py` `VolatilitySurface`: `surface: dict[str, VolatilitySkew]`, an
insertion-ordered mapping from expiry to skew. -/
structure VolatilitySurface where
  surface : List (Period × VolatilitySkew)

/-- `dtos.py` `VolUnit`. -/
inductive VolUnit where
  | BpPerYear

/-- `dtos.py` `VolatilityCube`: `unit` and `cube: dict[str, VolatilitySurface]`,
an insertion-ordered mapping from tenor to surface. -/
structure VolatilityCube where
  unit : VolUnit
  cube : List (Period × VolatilitySurface)

/-- `dtos.py` `Arbitrage = LeftAsymptotic | RightAsymptotic | Density`; the
`Density` bounds (`between: Tuple[float, float]`) are kept in wire form. -/
inductive Arbitrage where
  | leftAsymptotic
  | rightAsymptotic
  | density (lo hi : JsonV)

/-- `dtos.py` `ArbitrageCheck`: `arbitrage: Optional[Arbitrage]` (required
field, no default). -/
structure ArbitrageCheck where
  arbitrage : Option Arbitrage

/-- `dtos.py` `VolSampling`: six lists of floats, kept in wire form. -/
structure VolSampling where
  quoted_strikes : List JsonV
  quoted_vols : List JsonV
  quoted_pdf : List JsonV
  strikes : List JsonV
  vols : List JsonV
  pdf : List JsonV

/-- Pydantic validation of the `Arbitrage` union (`LeftAsymptotic |
RightAsymptotic | Density`): each member carries a `Literal` discriminant
`type` with a default, members are tried left to right, extra fields are
ignored, and `Density` additionally requires `between` as a two-element
array. -/
def validateArbitrage : JsonV → Except String Arbitrage
  | .jobj fs =>
    match fs.lookup "type" with
    | none => .ok .leftAsymptotic
    | some (.jstr "LeftAsymptotic") => .ok .leftAsymptotic
    | some (.jstr "RightAsymptotic") => .ok .rightAsymptotic
    | some (.jstr "Density") =>
      match fs.lookup "between" with
      | some (.jarr [a, b]) => .ok (.density a b)
      | _ => .error "Density.between: field required as a pair"
    | some _ => .error "no member of the Arbitrage union matched"
  | _ => .error "input is not an object"

/-- Pydantic validation `dtos.ArbitrageCheck.model_validate` on a decoded
dict: `arbitrage` is `Optional` but has no default, so a missing `arbitrage`
key is a validation error; an explicit `null` validates to `None`. -/
def validateArbitrageCheck (fs : JsonObj) : Except String ArbitrageCheck :=
  match fs.lookup "arbitrage" with
  | none => .error "arbitrage: Field required"
  | some .jnull => .ok ⟨none⟩
  | some v => (validateArbitrage v).map fun a => ⟨some a⟩

/-- `dtos.py` `Curve`. -/
structure Curve where
  name : String
  currency : String

/-- `dtos.py` `Direction`. -/
inductive Direction where
  | FORWARD
  | BACKWARD

/-- `dtos.py` `StubConvention`. -/
inductive StubConvention where
  | SHORT
  | LONG

/-- `dtos.py` `BusinessDayConvention`. -/
inductive BusinessDayConvention where
  | FOLLOWING
  | PRECEDING
  | MODIFIED_FOLLOWING

/-- `dtos.py` `DayCounter`. -/
inductive DayCounter where
  | ACT360
  | ACT365

/-- `dtos.py` `Libor`. -/
structure Libor where
  currency : String
  tenor : String
  spot_lag : Int
  day_counter : DayCounter
  calendar : String
  reset_curve : Curve
  bd_convention : BusinessDayConvention

/-- `dtos.py` `SwapRate`. -/
structure SwapRate where
  tenor : String
  spot_lag : Int
  payment_delay : Int
  fixed_period : Int
  floating_rate : String
  fixed_day_counter : DayCounter
  calendar : String
  bd_convention : BusinessDayConvention
  stub : StubConvention
  direction : Direction
  discount_curve : Curve

/-- `dtos.py` `LiborConventions`. -/
structure LiborConventions where
  currency : String
  spot_lag : Int
  day_counter : DayCounter
  calendar : String
  reset_curve : Curve
  bd_convention : BusinessDayConvention

/-- `dtos.py` `SwapRateConventions`. -/
structure SwapRateConventions where
  spot_lag : Int
  payment_delay : Int
  fixed_period : String
  floating_rate : String
  fixed_day_counter : DayCounter
  calendar : String
  bd_convention : BusinessDayConvention
  stub : StubConvention
  direction : Direction
  discount_curve : Curve

/-- `dtos.py` `VolatilityMarketConventions`, in the shape `db.get_conventions`
actually builds and the callers consume (`libor_rate[0]`/`libor_rate[1]` in
`client.py` and `handler.py`): each rate convention is paired with the rate's
name. -/
structure VolatilityMarketConventions where
  boundary_tenor : String
  libor_rate : String × LiborConventions
  swap_rate : String × SwapRateConventions

end Dtos

namespace Message

/-- `message.py` `ClientMsg`: the closed, `type`-tagged union of
inbound-from-UI messages (`ping`, `load_cube`, `get_conventions`,
`get_rates`, `get_arbitrage_matrix`, `get_arbitrage_check`,
`get_vol_samples`); an unknown tag is a decode failure. -/
inductive ClientMsg where
  | ping
  | load_cube (file_path : String)
  | get_conventions (currency : String)
  | get_rates (currency : String)
  | get_arbitrage_matrix (currency : String) (vol_cube : Dtos.VolatilityCube)
  | get_arbitrage_check (currency : String) (vol_cube : Dtos.VolatilityCube)
      (tenor expiry : String)
  | get_vol_samples (currency : String) (vol_cube : Dtos.VolatilityCube)
      (tenor expiry : String)

/-- `message.py` `ServerMsg`: the closed, `type`-tagged union of
outbound-to-UI messages (`pong`, `vola_cube`, `conventions`, `rates`,
`arbitrage_matrix`, `arbitrage_check`, `vol_samples`, `notification`). -/
inductive ServerMsg where
  | pong
  | vola_cube (currency : String) (cube : Dtos.VolatilityCube)
  | conventions (currency : String) (conventions : Dtos.VolatilityMarketConventions)
  | rates (currency : String) (libor_rates : List (String × Dtos.Libor))
      (swap_rates : List (String × Dtos.SwapRate))
  | arbitrage_matrix (currency : String)
      (matrix : List (Dtos.Period × Dtos.Period × Dtos.ArbitrageCheck))
  | arbitrage_check (currency tenor expiry : String) (check : Dtos.ArbitrageCheck)
  | vol_samples (currency tenor expiry : String) (samples : Dtos.VolSampling)
  | notification (msg : String) (severity : Severity)

end Message

/-- `settings.py` `Settings`: the environment-overridable configuration
surface (only the fields the verified properties touch), with its defaults. -/
structure Settings where
  max_requests_in_flight : Nat
  bulk_arbitrage_matrix : Bool
  ws_heartbeat_seconds : Nat

/-- `settings.py`: `settings = Settings()`, i.e. the defaults
(`max_requests_in_flight = 512`, `bulk_arbitrage_matrix = True`,
`ws_heartbeat_seconds = 3`). -/
def settings : Settings :=
  { max_requests_in_flight := 512, bulk_arbitrage_matrix := true,
    ws_heartbeat_seconds := 3 }

namespace Lib

/-- `lib.py` `Error`: the structured JSON-RPC error object. -/
structure Error where
  code : Int
  message : String
  data : Option JsonObj

/-- `lib.py` `RpcResponse`: the decoded `{ result | error, id, jsonrpc }`
response (after `RpcResponse.model_validate` succeeded). -/
structure RpcResponse where
  result : Option JsonObj
  error : Option Error
  id : Option String

/-- The failures `_rpc_call` can raise after decoding a response. -/
inductive RpcFailure where
  | rpcError (message : String)
  | missingResult
  | validationError (e : String)

/-- `lib.py` lines 41-50, the response handling of `_rpc_call` (the same logic
appears in `qlib.arbitrage_check` lines 73-80): the request is posted with a
fresh uuid `reqId`, the response of that POST is decoded into `rsp`, and then:
`if rsp.error: raise` (an `Error` instance is always truthy, so this fires
exactly when `error` is not `None`); `if rsp.result is None: raise`; otherwise
`return kls.model_validate(rsp.result)` where the validator for the requested
result type `kls` is the `validate` argument.  `reqId` is never consulted
again: the source never compares `rsp.id` with `request.id`. -/
def rpc_call {α : Type} (reqId : String) (validate : JsonObj → Except String α)
    (rsp : RpcResponse) : Except RpcFailure α :=
  match rsp.error with
  | some e => .error (.rpcError e.message)
  | none =>
    match rsp.result with
    | none => .error .missingResult
    | some r =>
      match validate r with
      | .ok v => .ok v
      | .error e => .error (.validationError e)

end Lib

namespace Server

/-- The three `except` arms of the `LoadCube` file-loading `try` in
`server.py` lines 140-147: `ValidationError`, `JSONDecodeError`, and any
other exception. -/
inductive LoadFailure where
  | validationError
  | jsonDecodeError
  | otherError

/-- The notification text `handle_client_msg` produces for each load
failure (`server.py` lines 141, 144, 147). -/
def loadFailureMsg : LoadFailure → String → String
  | .validationError, path => s!"failed to validate json in {path}"
  | .jsonDecodeError, path => s!"failed to decode json in {path}"
  | .otherError, path => s!"failed to load {path}"

/-- The gateway's fallible collaborators, passed in as functions the way the
source receives them (the sqlite `db` module, the `Handler` RPC facade, and
the filesystem/JSON loading of `LoadCube`).  `Except String` models a raised
exception.  The reference date `t` (fixed per connection in
`websocket_endpoint`) is folded into the handler functions. -/
structure Collab where
  get_conventions : String → Except String Dtos.VolatilityMarketConventions
  get_libor_rates : String → Except String (List (String × Dtos.Libor))
  get_swap_rates : String → Except String (List (String × Dtos.SwapRate))
  arbitrage_check : Dtos.VolatilityCube → String → Dtos.Period → Dtos.Period →
    Except String Dtos.ArbitrageCheck
  arbitrage_matrix : Dtos.VolatilityCube → String →
    Except String (List (Dtos.Period × Dtos.Period × Option Dtos.Arbitrage))
  vol_sampling : Dtos.VolatilityCube → String → Dtos.Period → Dtos.Period →
    Except String Dtos.VolSampling
  load_file : String → Except LoadFailure (String × Dtos.VolatilityCube)

/-- `server.py` lines 82-84 `get_conventions`: wrap the storage lookup into a
`Conventions` message. -/
def get_conventions (c : Collab) (ccy : String) : Except String Message.ServerMsg :=
  (c.get_conventions ccy).map fun conv => .conventions ccy conv

/-- `server.py` lines 86-89 `get_rates`: two storage lookups wrapped into one
`Rates` message; if either raises, `get_rates` raises. -/
def get_rates (c : Collab) (ccy : String) : Except String Message.ServerMsg := do
  let libor ← c.get_libor_rates ccy
  let swap ← c.get_swap_rates ccy
  return .rates ccy libor swap

/-- Sequencing of fallible computations over a list (the effect of joining a
`TaskGroup` in which each task may raise): all succeed, or the first failure
fails the whole group. -/
def exceptTraverse {α β ε : Type} (f : α → Except ε β) : List α → Except ε (List β)
  | [] => .ok []
  | x :: xs => do
    let y ← f x
    let ys ← exceptTraverse f xs
    return y :: ys

/-- The `(tenor, expiry)` pairs enumerated by the nested loops of
`get_arbitrage_matrix` (`for tenor, surface in vol.cube.items(): for expiry
in surface.surface:`), in dict insertion order. -/
def cubePairs (vol : Dtos.VolatilityCube) : List (Dtos.Period × Dtos.Period) :=
  vol.cube.flatMap fun ts => ts.2.surface.map fun es => (ts.1, es.1)

/-- `server.py` lines 91-111 `get_arbitrage_matrix`.  Non-bulk branch
(`settings.bulk_arbitrage_matrix` off): a `TaskGroup` spawns one task per
`(tenor, expiry)` pair of the cube; each task performs one
`handler.arbitrage_check` RPC and puts its `(tenor, expiry, check)` triple on
a local queue; after the group joins, the `n` triples are drained with
`get_nowait` in task-completion order.  The completion order is scheduler
chosen, so it enters as the `order` parameter, a permutation of
`cubePairs vol`; a failing task makes the `TaskGroup` raise, failing the
whole call.  Bulk branch: one `handler.arbitrage_matrix` RPC, each response
row `(t, e, a)` re-wrapped as `(t, e, ArbitrageCheck(arbitrage=a))`. -/
def get_arbitrage_matrix (bulk : Bool) (c : Collab) (ccy : String)
    (vol : Dtos.VolatilityCube) (order : List (Dtos.Period × Dtos.Period)) :
    Except String (List (Dtos.Period × Dtos.Period × Dtos.ArbitrageCheck)) :=
  if !bulk then
    exceptTraverse (fun te =>
      (c.arbitrage_check vol ccy te.1 te.2).map fun chk => (te.1, te.2, chk)) order
  else
    (c.arbitrage_matrix vol ccy).map
      (List.map fun row => (row.1, row.2.1, ⟨row.2.2⟩))

/-- How many engine RPC calls `get_arbitrage_matrix` issues: in the per-cell
strategy each of the spawned tasks issues exactly one `arbitrage_check` call
(one per `(tenor, expiry)` pair); in the bulk strategy there is exactly one
`arbitrage_matrix` call. -/
def get_arbitrage_matrix_rpc_count (bulk : Bool) (vol : Dtos.VolatilityCube) : Nat :=
  if !bulk then (cubePairs vol).length else 1

/-- `server.py` lines 126-238 `handle_client_msg`: dispatch one inbound
message, returning the outbound messages put on `q_out`, in order, together
with the exception the handler itself raises, if any.  Faithful points:
 * `Ping` answers `Pong`.
 * In `LoadCube`, a file/decode/validation failure is logged and converted to
   one `notification` of severity `error` (`log_notify_error`); on success the
   cube is pushed and then each follow-up step (`conventions`, `rates`,
   `arbitrage matrix`, first-cell `vol samples`) has its own `try`, failures
   becoming their own `error` notifications; a successful matrix additionally
   pushes an `information` notification.  The first tenor/expiry extraction
   (`list(vol.cube.keys())[0]`, lines 177-178) sits outside any `try`, so an
   empty cube (or empty first surface) raises `IndexError` after the earlier
   messages were already enqueued.
 * In the remaining five cases (`GetConventions`, `GetRates`,
   `GetArbitrageMatrix`, `GetArbitrageCheck`, `GetVolSamples`) a failure is
   only logged (`logger.exception`) — no outbound message of any kind is
   enqueued. -/
def handle_client_msg (bulk : Bool) (c : Collab)
    (order : List (Dtos.Period × Dtos.Period)) :
    Message.ClientMsg → List Message.ServerMsg × Option PyExn
  | .ping => ([.pong], none)
  | .load_cube path =>
    match c.load_file path with
    | .error e => ([.notification (loadFailureMsg e path) .ERROR], none)
    | .ok (ccy, vol) =>
      let afterCube := [Message.ServerMsg.vola_cube ccy vol]
      let afterConv := afterCube ++
        match get_conventions c ccy with
        | .ok m => [m]
        | .error _ => [.notification "failed to return conventions" .ERROR]
      let afterRates := afterConv ++
        match get_rates c ccy with
        | .ok m => [m]
        | .error _ => [.notification "failed to return rates" .ERROR]
      let afterMatrix := afterRates ++
        match get_arbitrage_matrix bulk c ccy vol order with
        | .ok matrix =>
          [.arbitrage_matrix ccy matrix,
           .notification "Arbitrage matrix constructed" .INFORMATION]
        | .error _ => [.notification "failed to return arbitrage matrix" .ERROR]
      match vol.cube with
      | [] => (afterMatrix, some .indexError)
      | (tenor, surf) :: _ =>
        match surf.surface with
        | [] => (afterMatrix, some .indexError)
        | (expiry, _) :: _ =>
          (afterMatrix ++
            match c.vol_sampling vol ccy tenor expiry with
            | .ok samples => [.vol_samples ccy tenor expiry samples]
            | .error _ =>
              [.notification
                s!"failed to return sampled data for rate underlying ({tenor},{expiry})"
                .ERROR],
           none)
  | .get_conventions ccy =>
    (match get_conventions c ccy with
     | .ok m => [m]
     | .error _ => [], none)
  | .get_rates ccy =>
    (match get_rates c ccy with
     | .ok m => [m]
     | .error _ => [], none)
  | .get_arbitrage_matrix ccy vol =>
    (match get_arbitrage_matrix bulk c ccy vol order with
     | .ok matrix => [.arbitrage_matrix ccy matrix]
     | .error _ => [], none)
  | .get_arbitrage_check ccy vol tenor expiry =>
    (match c.arbitrage_check vol ccy tenor expiry with
     | .ok chk => [.arbitrage_check ccy tenor expiry chk]
     | .error _ => [], none)
  | .get_vol_samples ccy vol tenor expiry =>
    (match c.vol_sampling vol ccy tenor expiry with
     | .ok samples => [.vol_samples ccy tenor expiry samples]
     | .error _ => [], none)

end Server

/-- One frame arriving on a websocket, as seen by a receive loop: a record
that decodes to a message of type `μ`, a record that fails validation
(pydantic `ValidationError`), or the transport signalling closure
(`WebSocketDisconnect` / `ConnectionClosed`). -/
inductive Frame (μ : Type) where
  | valid (m : μ)
  | invalid
  | disconnect

/-- How a receive loop ends: the input stream ran out (the loop is still
running), the coroutine ended normally (a caught exception followed by a
plain return or `break` — under `asyncio.TaskGroup` this does not cancel the
sibling tasks), or it re-raised (fatal: the `TaskGroup` cancels the session's
other tasks). -/
inductive LoopEnd where
  | running
  | returned
  | raised
deriving DecidableEq, Repr

namespace Server

/-- `server.py` lines 59-71 `recv_loop`: the single `try` wraps the whole
`async for` over `ws.iter_json()`, so a `ValidationError` raised while
decoding one record propagates out of the `async for`; the
`except ValidationError` arm logs it and does not re-raise, ending the
coroutine normally — the loop is never re-entered.  `WebSocketDisconnect`
(and any other exception) is logged and re-raised.  Returns the messages put
on `q_in`, in order, and how the loop ended. -/
def recv_loop : List (Frame Message.ClientMsg) → List Message.ClientMsg × LoopEnd
  | [] => ([], .running)
  | .valid m :: rest =>
    let (ms, e) := recv_loop rest
    (m :: ms, e)
  | .invalid :: _ => ([], .returned)
  | .disconnect :: _ => ([], .raised)

end Server

namespace Client

/-- `client.py` lines 106-118 `recv_loop`: the `try` sits inside the
`while True`, so a `ValidationError` on one record is logged and the loop
continues with the next record; `ConnectionClosed` (and any other exception)
is logged, surfaced as a warning toast, and followed by `break` — a normal
return.  Returns the messages put on `q_in`, in order, and how the loop
ended. -/
def recv_loop : List (Frame Message.ServerMsg) → List Message.ServerMsg × LoopEnd
  | [] => ([], .running)
  | .valid m :: rest =>
    let (ms, e) := recv_loop rest
    (m :: ms, e)
  | .invalid :: rest => recv_loop rest
  | .disconnect :: _ => ([], .returned)

/-- The four possible outcomes of one heartbeat iteration's body
(`client.py` lines 76-89): the `ws.send` of the serialized `Ping` succeeds,
serialization raises `PydanticSerializationError`, the send raises
`ConnectionClosed`, or it raises some other exception. -/
inductive SendOutcome where
  | ok
  | serializeError
  | connClosed
  | otherError

/-- State touched by the client session's heartbeat task: the records written
on the websocket by `ws.send`, the session's outbound queue `q_out` (drained
by `send_loop`), the toast queue, and whether the heartbeat loop has ended. -/
structure HbState where
  wire : List Message.ClientMsg
  q_out : List Message.ClientMsg
  toasts : List (String × String)
  stopped : Bool

/-- One iteration of `send_heartbeat`'s `while True` body: on success the
serialized `Ping` is written directly to the websocket by `ws.send` — it is
not put on `q_out`; a serialization failure is logged and the loop continues;
`ConnectionClosed` is logged, a warning toast is queued, and the loop breaks;
any other exception likewise.  Every arm is caught: the body never
re-raises. -/
def send_heartbeat_step (s : HbState) (r : SendOutcome) : HbState :=
  match r with
  | .ok => { s with wire := s.wire ++ [.ping] }
  | .serializeError => s
  | .connClosed =>
    { s with toasts := s.toasts ++ [("ws connection closed", "warning")],
             stopped := true }
  | .otherError =>
    { s with toasts := s.toasts ++ [("sending heartbeat failed", "warning")],
             stopped := true }

/-- The heartbeat loop over a sequence of iteration outcomes, stopping after
a `break`. -/
def send_heartbeat_run (s : HbState) : List SendOutcome → HbState
  | [] => s
  | r :: rest =>
    let s2 := send_heartbeat_step s r
    if s2.stopped then s2 else send_heartbeat_run s2 rest

end Client

namespace Session

/-- The outbound half of one session: the FIFO outbound queue (`q_out`) and
the records already written to the wire by the single send task
(`server.py` lines 73-80 `send_loop`: one `await q_out.get()` then one
`ws.send_json` per iteration). -/
structure OutState (μ : Type) where
  queue : List μ
  wire : List μ

/-- An event on the outbound half: some dispatch path enqueues a message
(`q_out.put`, appending to the FIFO queue), or the send task completes one
iteration (dequeue the head, write it to the wire; with an empty queue
`q_out.get()` suspends and nothing happens). -/
inductive OutEvent (μ : Type) where
  | enqueue (m : μ)
  | send

/-- One step of the outbound half. -/
def outStep {μ : Type} (s : OutState μ) : OutEvent μ → OutState μ
  | .enqueue m => ⟨s.queue ++ [m], s.wire⟩
  | .send =>
    match s.queue with
    | [] => s
    | m :: rest => ⟨rest, s.wire ++ [m]⟩

/-- Run the outbound half over an arbitrary interleaving of enqueues (from
any concurrent dispatch path) and send-task iterations. -/
def outRun {μ : Type} (s : OutState μ) (evs : List (OutEvent μ)) : OutState μ :=
  evs.foldl outStep s

/-- The messages enqueued by an event sequence, in enqueue order. -/
def enqueuedOf {μ : Type} (evs : List (OutEvent μ)) : List μ :=
  evs.filterMap fun ev =>
    match ev with
    | .enqueue m => some m
    | .send => none

end Session

namespace AsyncioQueue

/-- `asyncio.Queue`: a `maxsize` (0 means unbounded) and the held items. -/
structure AQueue (α : Type) where
  maxsize : Nat
  items : List α

/-- `asyncio.Queue.full()`: with `maxsize <= 0` the queue is never full;
otherwise it is full when it holds at least `maxsize` items. -/
def full {α : Type} (q : AQueue α) : Bool :=
  0 < q.maxsize && q.maxsize ≤ q.items.length

/-- `asyncio.Queue.put_nowait(a)`: raises `QueueFull` (`none`) when the queue
is full, else appends.  `await q.put(a)` differs only in blocking instead of
raising; on a never-full queue both always append immediately. -/
def put_nowait {α : Type} (q : AQueue α) (a : α) : Option (AQueue α) :=
  if full q then none else some ⟨q.maxsize, q.items ++ [a]⟩

/-- A sequence of puts, stopping at the first `QueueFull`. -/
def putMany {α : Type} (q : AQueue α) (xs : List α) : Option (AQueue α) :=
  xs.foldlM put_nowait q

/-- `server.py` line 50: `q_in = Queue[ClientMsg]()` — no `maxsize` argument,
so the asyncio default `maxsize=0` (unbounded). -/
def server_q_in : AQueue Message.ClientMsg := ⟨0, []⟩

/-- `server.py` line 51: `q_out = Queue[ServerMsg]()` — likewise unbounded. -/
def server_q_out : AQueue Message.ServerMsg := ⟨0, []⟩

end AsyncioQueue

namespace Socket

/-- Modelled from the spec: the RPC Multiplexer `lib.Socket`.  `handler.py`
does `from lib import Method, RPCRequest, Socket` and issues every engine
call through `self.socket.call(request, kls)`, but the `lib.py` revision in
the tree does not contain the `Socket` class; `settings.max_requests_in_flight`
(the configured ceiling) is likewise referenced by no source file.  Following
spec section 4.1 — "the call is admitted only if fewer than a configured
ceiling of calls are currently outstanding (counting semaphore); callers
beyond the ceiling block until a slot frees" — the multiplexer is modelled as
a transition system whose state counts the calls outstanding on the wire:
a `write` (a blocked caller acquiring a permit and writing its request)
is enabled only below the ceiling, and a `complete` (response, timeout or
connection loss fulfilling a call) frees a permit. -/
structure MuxState where
  outstanding : Nat

/-- Modelled from the spec: the two transitions of the multiplexer's
admission discipline. -/
inductive MuxStep (ceiling : Nat) : MuxState → MuxState → Prop
  | write (s : MuxState) : s.outstanding < ceiling →
      MuxStep ceiling s ⟨s.outstanding + 1⟩
  | complete (s : MuxState) : 0 < s.outstanding →
      MuxStep ceiling s ⟨s.outstanding - 1⟩

/-- States reachable from the idle multiplexer (no call outstanding). -/
inductive Reachable (ceiling : Nat) : MuxState → Prop
  | init : Reachable ceiling ⟨0⟩
  | step {s s2 : MuxState} : Reachable ceiling s → MuxStep ceiling s s2 →
      Reachable ceiling s2

end Socket

/-- A concrete collaborator environment in which every storage lookup, every
RPC and the file load raise; a concrete input for evaluating
`handle_client_msg`. -/
def Server.collabAllFail : Server.Collab where
  get_conventions := fun _ => .error "db error"
  get_libor_rates := fun _ => .error "db error"
  get_swap_rates := fun _ => .error "db error"
  arbitrage_check := fun _ _ _ _ => .error "rpc error"
  arbitrage_matrix := fun _ _ => .error "rpc error"
  vol_sampling := fun _ _ _ _ => .error "rpc error"
  load_file := fun _ => .error .otherError

/-- A concrete collaborator environment whose engine RPCs succeed (every
per-cell check returns "no arbitrage", the bulk call returns an empty
matrix); a concrete input for evaluating `get_arbitrage_matrix`. -/
def Server.collabRpcOk : Server.Collab :=
  { Server.collabAllFail with
    arbitrage_check := fun _ _ _ _ => .ok ⟨none⟩,
    arbitrage_matrix := fun _ _ => .ok [] }

/-- A concrete volatility cube with one tenor (`3M`) and two expiries
(`1Y`, `2Y`). -/
def Server.volTwoCells : Dtos.VolatilityCube :=
  ⟨.BpPerYear, [("3M", ⟨[("1Y", ⟨[]⟩), ("2Y", ⟨[]⟩)]⟩)]⟩

/-- C10: for every member of the `Severity` enumeration, `to_textual()` raises
(a bare `raise`, i.e. `RuntimeError`) instead of returning the textual
severity literal, because the `match` compares the member's string value
against enum members and therefore never selects a returning branch. -/
theorem c10_to_textual_always_raises :
    ∀ s : Severity, s.to_textual = Except.error PyExn.runtimeError := by
  intro s
  cases s <;> rfl

/-- C3 counterexample: a response whose `id` (`"3f2e"`) differs from the
request's generated id (`"abc"`) is nevertheless delivered as the call's
result — `_rpc_call` never compares the two ids. -/
theorem c3_counterexample_mismatched_id_delivered :
    Lib.rpc_call "abc" Dtos.validateArbitrageCheck
        ⟨some [("arbitrage", JsonV.jnull)], none, some "3f2e"⟩
      = Except.ok ⟨none⟩
    ∧ (some "abc" : Option String) ≠ some "3f2e" := by
  exact ⟨rfl, by simp⟩

/-- C3 amended: correlation is purely at the transport level — each call's
result is decoded from the HTTP response to that call's own POST.  Neither
correlation-identifier field is consulted: the outcome of `_rpc_call` is
independent of the request's generated id and of the `id` field of the decoded
response, so a response arriving on the call's own exchange is delivered even
when its `id` does not match (or is absent). -/
theorem c3_rpc_call_ignores_ids {α : Type}
    (reqId reqId' : String) (validate : JsonObj → Except String α)
    (result : Option JsonObj) (error : Option Lib.Error) (i i' : Option String) :
    Lib.rpc_call reqId validate ⟨result, error, i⟩
      = Lib.rpc_call reqId' validate ⟨result, error, i'⟩ := by
  rfl

/-- C8 counterexample: on the response `{"result": {}, "error": null}` for an
`arbitrage` call, `_rpc_call` raises (the empty result dict fails
`dtos.ArbitrageCheck` validation: `arbitrage` is a required field) although
`error` is null and `result` is non-null — refuting the claimed
"if and only if". -/
theorem c8_counterexample_validation_failure_raises :
    Lib.rpc_call "abc" Dtos.validateArbitrageCheck
        ⟨some [], none, some "abc"⟩
      = Except.error (Lib.RpcFailure.validationError "arbitrage: Field required")
    ∧ (none : Option Lib.Error) = none
    ∧ (some [] : Option JsonObj) ≠ none := by
  exact ⟨rfl, rfl, by simp⟩

/-- C8 amended: `_rpc_call` raises if and only if the decoded response carries
a non-null `error`, or a null `result`, or a `result` payload that fails
validation into the requested result type; when none of these hold it returns
the validated result. -/
theorem c8_rpc_call_failure_iff {α : Type}
    (reqId : String) (validate : JsonObj → Except String α) (rsp : Lib.RpcResponse) :
    ((Lib.rpc_call reqId validate rsp).isOk = false ↔
      rsp.error ≠ none ∨ rsp.result = none ∨
        ∃ r, rsp.result = some r ∧ (validate r).isOk = false)
    ∧ (∀ (r : JsonObj) (v : α), rsp.error = none → rsp.result = some r →
        validate r = .ok v → Lib.rpc_call reqId validate rsp = .ok v) := by
  obtain ⟨result, error, i⟩ := rsp
  constructor
  · cases error with
    | some e => simp [Lib.rpc_call, Except.isOk, Except.toBool]
    | none =>
      cases result with
      | none => simp [Lib.rpc_call, Except.isOk, Except.toBool]
      | some r =>
        cases h : validate r with
        | ok v => simp [Lib.rpc_call, h, Except.isOk, Except.toBool]
        | error e => simp [Lib.rpc_call, h, Except.isOk, Except.toBool]
  · intro r v herr hres hval
    subst herr
    simp only at hres
    subst hres
    simp [Lib.rpc_call, hval]

/-- C8 witness: the conjuncts of `c8_rpc_call_failure_iff` applied at a
concrete successful exchange. -/
theorem c8_rpc_call_failure_iff_witness :
    Lib.rpc_call "abc" Dtos.validateArbitrageCheck
        ⟨some [("arbitrage", JsonV.jnull)], none, some "abc"⟩
      = Except.ok ⟨none⟩ :=
  (c8_rpc_call_failure_iff "abc" Dtos.validateArbitrageCheck
      ⟨some [("arbitrage", JsonV.jnull)], none, some "abc"⟩).2
    [("arbitrage", JsonV.jnull)] ⟨none⟩ rfl rfl rfl

/-- C1 (evaluating the code at the failing input): on the inbound frame
sequence "one invalid record, then one valid `ping`", the server's
`recv_loop` enqueues nothing and ends (normal return after the caught
`ValidationError`) — the session is not torn down (`returned`, not
`raised`), but the subsequent valid message is never decoded or enqueued.
The client's `recv_loop` on the analogous sequence keeps running and
enqueues the subsequent valid message. -/
theorem c1_server_decode_failure_stops_receiving :
    Server.recv_loop [Frame.invalid, Frame.valid Message.ClientMsg.ping]
      = ([], LoopEnd.returned)
    ∧ Client.recv_loop [Frame.invalid, Frame.valid Message.ServerMsg.pong]
      = ([Message.ServerMsg.pong], LoopEnd.running) :=
  ⟨rfl, rfl⟩

/-- C2 counterexample: a `GetConventions` request whose storage lookup raises
is handled with no outbound message at all (the failure is only logged) —
refuting "every inbound request whose handling raises an exception enqueues
an outbound notification". -/
theorem c2_counterexample_get_conventions_failure_is_silent :
    Server.handle_client_msg true Server.collabAllFail []
        (Message.ClientMsg.get_conventions "USD") = ([], none)
    ∧ (Server.collabAllFail.get_conventions "USD").isOk = false :=
  ⟨rfl, rfl⟩

set_option maxRecDepth 8000 in
/-- C2 amended: only the `LoadCube` path converts failures into outbound
`notification`s (severity `error`); a failure while handling any of the five
direct request messages (`GetConventions`, `GetRates`, `GetArbitrageMatrix`,
`GetArbitrageCheck`, `GetVolSamples`) is only logged and produces no
outbound message of any kind. -/
theorem c2_only_loadcube_failures_notify (bulk : Bool) (c : Server.Collab)
    (order : List (Dtos.Period × Dtos.Period)) (ccy path tenor expiry : String)
    (vol : Dtos.VolatilityCube) :
    ((Server.get_conventions c ccy).isOk = false →
      Server.handle_client_msg bulk c order (.get_conventions ccy) = ([], none))
    ∧ ((Server.get_rates c ccy).isOk = false →
      Server.handle_client_msg bulk c order (.get_rates ccy) = ([], none))
    ∧ ((Server.get_arbitrage_matrix bulk c ccy vol order).isOk = false →
      Server.handle_client_msg bulk c order (.get_arbitrage_matrix ccy vol)
        = ([], none))
    ∧ ((c.arbitrage_check vol ccy tenor expiry).isOk = false →
      Server.handle_client_msg bulk c order
        (.get_arbitrage_check ccy vol tenor expiry) = ([], none))
    ∧ ((c.vol_sampling vol ccy tenor expiry).isOk = false →
      Server.handle_client_msg bulk c order
        (.get_vol_samples ccy vol tenor expiry) = ([], none))
    ∧ (∀ fe, c.load_file path = .error fe →
      Server.handle_client_msg bulk c order (.load_cube path)
        = ([.notification (Server.loadFailureMsg fe path) .ERROR], none))
    ∧ (∀ ccy2 vol2, c.load_file path = .ok (ccy2, vol2) →
      (Server.get_conventions c ccy2).isOk = false →
      Message.ServerMsg.notification "failed to return conventions" .ERROR
        ∈ (Server.handle_client_msg bulk c order (.load_cube path)).1) := by
  refine ⟨?_, ?_, ?_, ?_, ?_, ?_, ?_⟩
  · intro h
    cases hc : Server.get_conventions c ccy with
    | ok v => rw [hc] at h; simp [Except.isOk, Except.toBool] at h
    | error e => simp [Server.handle_client_msg, hc]
  · intro h
    cases hc : Server.get_rates c ccy with
    | ok v => rw [hc] at h; simp [Except.isOk, Except.toBool] at h
    | error e => simp [Server.handle_client_msg, hc]
  · intro h
    cases hc : Server.get_arbitrage_matrix bulk c ccy vol order with
    | ok v => rw [hc] at h; simp [Except.isOk, Except.toBool] at h
    | error e => simp [Server.handle_client_msg, hc]
  · intro h
    cases hc : c.arbitrage_check vol ccy tenor expiry with
    | ok v => rw [hc] at h; simp [Except.isOk, Except.toBool] at h
    | error e => simp [Server.handle_client_msg, hc]
  · intro h
    cases hc : c.vol_sampling vol ccy tenor expiry with
    | ok v => rw [hc] at h; simp [Except.isOk, Except.toBool] at h
    | error e => simp [Server.handle_client_msg, hc]
  · intro fe hload
    simp [Server.handle_client_msg, hload]
  · intro ccy2 vol2 hload hconv
    cases hc : Server.get_conventions c ccy2 with
    | ok v => rw [hc] at hconv; simp [Except.isOk, Except.toBool] at hconv
    | error e =>
      simp only [Server.handle_client_msg, hload, hc]
      repeat' split
      all_goals simp [List.mem_append]

/-- C2 witness: the clauses of `c2_only_loadcube_failures_notify` applied in
the all-failing collaborator environment. -/
theorem c2_only_loadcube_failures_notify_witness :
    Server.handle_client_msg true Server.collabAllFail []
        (Message.ClientMsg.get_rates "USD") = ([], none)
    ∧ Server.handle_client_msg true Server.collabAllFail []
        (Message.ClientMsg.load_cube "cube.json")
      = ([.notification (Server.loadFailureMsg .otherError "cube.json") .ERROR],
         none) := by
  have h := c2_only_loadcube_failures_notify true Server.collabAllFail []
    "USD" "cube.json" "3M" "1Y" Server.volTwoCells
  exact ⟨h.2.1 rfl, h.2.2.2.2.2.1 .otherError rfl⟩

/-- Auxiliary: `exceptTraverse` succeeds pointwise. -/
theorem exceptTraverse_ok {α β ε : Type} (f : α → Except ε β) (g : α → β)
    (l : List α) (h : ∀ x ∈ l, f x = .ok (g x)) :
    Server.exceptTraverse f l = .ok (l.map g) := by
  induction l with
  | nil => rfl
  | cons x xs ih =>
    have hx := h x (by simp)
    have ihh := ih fun y hy => h y (by simp [hy])
    simp only [Server.exceptTraverse, hx, ihh]
    rfl

/-- C5: both arbitrage-matrix strategies, selected by
`settings.bulk_arbitrage_matrix`.  Flag off: one per-cell RPC for every
`(tenor, expiry)` pair of the cube — the returned matrix is, up to the
scheduler-chosen completion order, exactly the list of per-cell results, one
entry per pair.  Flag on: exactly one bulk RPC produces the matrix. -/
theorem c5_matrix_strategies (c : Server.Collab) (ccy : String)
    (vol : Dtos.VolatilityCube) (order : List (Dtos.Period × Dtos.Period))
    (chk : Dtos.Period → Dtos.Period → Dtos.ArbitrageCheck)
    (rows : List (Dtos.Period × Dtos.Period × Option Dtos.Arbitrage))
    (hperm : order.Perm (Server.cubePairs vol))
    (hok : ∀ t e, c.arbitrage_check vol ccy t e = Except.ok (chk t e))
    (hbulk : c.arbitrage_matrix vol ccy = Except.ok rows) :
    (Server.get_arbitrage_matrix false c ccy vol order
        = Except.ok (order.map fun te => (te.1, te.2, chk te.1 te.2))
      ∧ (order.map fun te => (te.1, te.2, chk te.1 te.2)).Perm
          ((Server.cubePairs vol).map fun te => (te.1, te.2, chk te.1 te.2))
      ∧ Server.get_arbitrage_matrix_rpc_count false vol
          = (Server.cubePairs vol).length)
    ∧ (Server.get_arbitrage_matrix true c ccy vol order
        = Except.ok (rows.map fun row => (row.1, row.2.1, ⟨row.2.2⟩))
      ∧ Server.get_arbitrage_matrix_rpc_count true vol = 1) := by
  refine ⟨⟨?_, ?_, rfl⟩, ⟨?_, rfl⟩⟩
  · have h : ∀ te ∈ order, ((c.arbitrage_check vol ccy te.1 te.2).map
        fun k => (te.1, te.2, k)) = Except.ok (te.1, te.2, chk te.1 te.2) := by
      intro te _
      rw [hok]
      rfl
    simpa [Server.get_arbitrage_matrix] using exceptTraverse_ok _ _ order h
  · exact hperm.map _
  · simp [Server.get_arbitrage_matrix, hbulk, Except.map]

/-- C5 witness: the per-cell strategy evaluated on a concrete two-cell cube
with the completion order equal to enumeration order. -/
theorem c5_matrix_strategies_witness :
    Server.get_arbitrage_matrix false Server.collabRpcOk "USD" Server.volTwoCells
        (Server.cubePairs Server.volTwoCells)
      = Except.ok [("3M", "1Y", ⟨none⟩), ("3M", "2Y", ⟨none⟩)]
    ∧ Server.get_arbitrage_matrix true Server.collabRpcOk "USD" Server.volTwoCells
        (Server.cubePairs Server.volTwoCells)
      = Except.ok [] := by
  have h := c5_matrix_strategies Server.collabRpcOk "USD" Server.volTwoCells
    (Server.cubePairs Server.volTwoCells) (fun _ _ => ⟨none⟩) []
    (List.Perm.refl _) (fun _ _ => rfl) rfl
  exact ⟨by simpa using h.1.1, by simpa using h.2.1⟩

/-- Auxiliary invariant of the outbound half: what was written plus what is
pending is exactly what was enqueued, in order. -/
theorem outRun_wire_queue {μ : Type} (evs : List (Session.OutEvent μ))
    (s : Session.OutState μ) :
    (Session.outRun s evs).wire ++ (Session.outRun s evs).queue
      = s.wire ++ s.queue ++ Session.enqueuedOf evs := by
  induction evs generalizing s with
  | nil => simp [Session.outRun, Session.enqueuedOf]
  | cons ev rest ih =>
    have hstep : Session.outRun s (ev :: rest)
        = Session.outRun (Session.outStep s ev) rest := rfl
    rw [hstep, ih (Session.outStep s ev)]
    cases ev with
    | enqueue m => simp [Session.outStep, Session.enqueuedOf]
    | send =>
      cases hq : s.queue with
      | nil => simp [Session.outStep, hq, Session.enqueuedOf]
      | cons m q => simp [Session.outStep, hq, Session.enqueuedOf]

/-- C6: within one session, the single send task writes outbound Envelopes to
the wire in exactly enqueue order: after any interleaving of enqueues (from
concurrently completing dispatch paths) and send iterations, the wire
followed by the still-pending queue is the enqueue-order sequence — so the
wire always carries a prefix of the enqueue order, never a reordering. -/
theorem c6_wire_order_is_enqueue_order
    (evs : List (Session.OutEvent Message.ServerMsg)) :
    (Session.outRun ⟨[], []⟩ evs).wire ++ (Session.outRun ⟨[], []⟩ evs).queue
      = Session.enqueuedOf evs := by
  simpa using outRun_wire_queue evs ⟨[], []⟩

/-- Auxiliary: on an unbounded queue every enqueue is accepted and the
backlog is everything enqueued. -/
theorem putMany_unbounded {α : Type} (items : List α) (xs : List α) :
    AsyncioQueue.putMany ⟨0, items⟩ xs = some ⟨0, items ++ xs⟩ := by
  induction xs generalizing items with
  | nil => simp [AsyncioQueue.putMany]
  | cons x xs ih =>
    have h : AsyncioQueue.put_nowait (⟨0, items⟩ : AsyncioQueue.AQueue α) x
        = some ⟨0, items ++ [x]⟩ := by
      simp [AsyncioQueue.put_nowait, AsyncioQueue.full]
    simp only [AsyncioQueue.putMany, List.foldlM_cons, h, Option.bind_eq_bind,
      Option.some_bind]
    simpa [AsyncioQueue.putMany] using ih (items ++ [x])

/-- C7 counterexample: the session's inbound queue is created with the
asyncio default `maxsize=0`; 600 consecutive enqueues (more than any value
configured anywhere in `settings`) are all accepted, none rejected, and the
backlog reaches 600 — there is no finite capacity bound and no rejection of
an enqueue. -/
theorem c7_counterexample_inbound_queue_unbounded :
    AsyncioQueue.server_q_in.maxsize = 0
    ∧ AsyncioQueue.putMany AsyncioQueue.server_q_in
        (List.replicate 600 Message.ClientMsg.ping)
      = some ⟨0, List.replicate 600 Message.ClientMsg.ping⟩
    ∧ AsyncioQueue.full
        (⟨0, List.replicate 600 Message.ClientMsg.ping⟩ :
          AsyncioQueue.AQueue Message.ClientMsg) = false :=
  ⟨rfl,
   by
     have h := putMany_unbounded [] (List.replicate 600 Message.ClientMsg.ping)
     rw [List.nil_append] at h
     exact h,
   rfl⟩

/-- C7 amended: both session queues are created without a `maxsize`, i.e.
unbounded (`maxsize = 0`): they are never full, every enqueue is accepted
(no enqueue is ever rejected or logged as overflow), and the backlog equals
everything enqueued, with no finite bound. -/
theorem c7_session_queues_unbounded (xs : List Message.ClientMsg)
    (ys : List Message.ServerMsg) :
    AsyncioQueue.putMany AsyncioQueue.server_q_in xs = some ⟨0, xs⟩
    ∧ AsyncioQueue.putMany AsyncioQueue.server_q_out ys = some ⟨0, ys⟩
    ∧ AsyncioQueue.full (⟨0, xs⟩ : AsyncioQueue.AQueue Message.ClientMsg) = false
    ∧ AsyncioQueue.full (⟨0, ys⟩ : AsyncioQueue.AQueue Message.ServerMsg) = false :=
  ⟨by simpa using putMany_unbounded [] xs,
   by simpa using putMany_unbounded [] ys, rfl, rfl⟩

/-- C9 counterexample: one successful heartbeat period from the initial
state writes the serialized `Ping` directly to the websocket and leaves the
session's outbound queue empty — the heartbeat does not enqueue a
heartbeat-ping Envelope to the outbound queue. -/
theorem c9_counterexample_ping_bypasses_outbound_queue :
    Client.send_heartbeat_step ⟨[], [], [], false⟩ .ok
      = ⟨[Message.ClientMsg.ping], [], [], false⟩ :=
  rfl

/-- Auxiliary: no heartbeat iteration touches the outbound queue. -/
theorem send_heartbeat_run_q_out (s : Client.HbState)
    (rs : List Client.SendOutcome) :
    (Client.send_heartbeat_run s rs).q_out = s.q_out := by
  induction rs generalizing s with
  | nil => rfl
  | cons r rest ih =>
    have hstep : (Client.send_heartbeat_step s r).q_out = s.q_out := by
      cases r <;> rfl
    simp only [Client.send_heartbeat_run]
    by_cases hs : (Client.send_heartbeat_step s r).stopped
    · simp [hs, hstep]
    · simp only [hs, if_neg, Bool.false_eq_true, ↓reduceIte]
      rw [ih]
      exact hstep

/-- C9 amended: on each period the heartbeat serializes a `Ping` and writes
it directly to the websocket (never via the outbound queue, which it leaves
untouched over any run); a serialization failure changes nothing and the
loop continues; a connection-closed or other send failure queues one warning
toast and sets only the heartbeat's own stop — every arm is caught, so the
heartbeat never raises, never blocks the session, and (a normal return under
`asyncio.TaskGroup`) never cancels the session's other tasks. -/
theorem c9_heartbeat_direct_and_best_effort (s : Client.HbState)
    (rs : List Client.SendOutcome) :
    (Client.send_heartbeat_run s rs).q_out = s.q_out
    ∧ Client.send_heartbeat_step s .ok
        = { s with wire := s.wire ++ [Message.ClientMsg.ping] }
    ∧ Client.send_heartbeat_step s .serializeError = s
    ∧ (Client.send_heartbeat_step s .connClosed).stopped = true
    ∧ (Client.send_heartbeat_step s .connClosed).toasts
        = s.toasts ++ [("ws connection closed", "warning")]
    ∧ (Client.send_heartbeat_step s .otherError).stopped = true
    ∧ (Client.send_heartbeat_step s .otherError).toasts
        = s.toasts ++ [("sending heartbeat failed", "warning")] :=
  ⟨send_heartbeat_run_q_out s rs, rfl, rfl, rfl, rfl, rfl, rfl⟩

/-- C4: in the spec-modelled multiplexer, every state reachable from the idle
multiplexer keeps the outstanding-call count at or below the configured
ceiling, and from a saturated state (outstanding at or above the ceiling) no
write is enabled — the only possible transition completes an earlier call,
strictly decreasing the count; a call issued at the ceiling therefore cannot
write to the wire until an earlier call completes. -/
theorem c4_inflight_never_exceeds_ceiling (ceiling : Nat) :
    (∀ s : Socket.MuxState, Socket.Reachable ceiling s →
      s.outstanding ≤ ceiling)
    ∧ ∀ s s2 : Socket.MuxState, Socket.MuxStep ceiling s s2 →
        ceiling ≤ s.outstanding → s2.outstanding + 1 = s.outstanding := by
  constructor
  · intro s h
    induction h with
    | init => exact Nat.zero_le _
    | step hr hs ih =>
      rename_i s1 s2
      cases hs with
      | write hlt =>
        show s1.outstanding + 1 ≤ ceiling
        omega
      | complete hpos =>
        show s1.outstanding - 1 ≤ ceiling
        omega
  · intro s s2 hs hge
    cases hs with
    | write hlt => exact absurd hlt (by omega)
    | complete hpos =>
      show s.outstanding - 1 + 1 = s.outstanding
      omega

/-- C4 witness: with the configured ceiling (`max_requests_in_flight = 512`),
a reachable state with one call outstanding respects the bound, and from the
saturated state the enabled completion strictly decreases the count. -/
theorem c4_inflight_never_exceeds_ceiling_witness :
    (Socket.MuxState.mk 1).outstanding ≤ settings.max_requests_in_flight
    ∧ (Socket.MuxState.mk 511).outstanding + 1
        = (Socket.MuxState.mk 512).outstanding := by
  constructor
  · exact (c4_inflight_never_exceeds_ceiling settings.max_requests_in_flight).1
      ⟨1⟩ (Socket.Reachable.step Socket.Reachable.init
        (Socket.MuxStep.write ⟨0⟩ (by decide)))
  · exact (c4_inflight_never_exceeds_ceiling 512).2 ⟨512⟩ ⟨511⟩
      (Socket.MuxStep.complete ⟨512⟩ (by decide)) (by decide)
